/-
Verification of the danmu_api_server ingestion engine.

Shallow embedding of the relevant parts of the repository:
  * src/crud.py        -- database operations (lists of rows stand for tables)
  * src/api/ui.py      -- query parsing and the generic import task
  * src/scrapers/tencent.py -- comment fetch normalization

Machine integers are modelled as Nat (ids, counters) and Int (colors);
SQL tables are lists of row structures, kept in insertion order, with
AUTO_INCREMENT counters threaded explicitly.  `datetime.now()` is an
explicit `now : Nat` parameter.  Fallible operations return Except.
-/
import Mathlib

set_option autoImplicit false

namespace DanmuServer

/-! ### Deterministic episode id (src/crud.py, create_episode_if_not_exists)

The id is produced by
  `new_episode_id_str = f"25{anime_id:06d}{source_order:02d}{episode_index:04d}"`
  `new_episode_id = int(new_episode_id_str)`
i.e. decimal concatenation of "25" with the three fields, each zero-padded
to a minimum width (Python `:0kd` pads but never truncates). -/

/-- Helper for `numDigits`: structural recursion on a fuel bound so that
the definition reduces in the kernel. -/
def numDigitsAux : Nat → Nat → Nat
  | 0, _ => 0
  | fuel + 1, n => if n < 10 then 1 else numDigitsAux fuel (n / 10) + 1

/-- Number of decimal digits of `n` (1 for 0), i.e. the length of Python's
`str(n)` for a nonnegative integer. -/
def numDigits (n : Nat) : Nat := numDigitsAux (n + 1) n

/-- Width of the field `n` printed with Python format `:0kd`: zero-padding
to minimum width `k`, never truncating. -/
def padWidth (k n : Nat) : Nat := max k (numDigits n)

/-- Embeds `int(f"25{anime_id:06d}{source_order:02d}{episode_index:04d}")`:
decimal concatenation of the zero-padded fields appended to the literal 25. -/
def genEpisodeId (animeId sourceOrder episodeIndex : Nat) : Nat :=
  ((25 * 10 ^ padWidth 6 animeId + animeId)
      * 10 ^ padWidth 2 sourceOrder + sourceOrder)
      * 10 ^ padWidth 4 episodeIndex + episodeIndex

/-! ### Data model (src/models.py and the SQL tables created in src/database.py) -/

/-- A row of the `anime` table. -/
structure AnimeRow where
  id : Nat
  title : String
  mediaType : String
  season : Nat
  imageUrl : Option String
  localImagePath : Option String
  createdAt : Nat
  deriving Repr, DecidableEq

/-- A row of the `anime_sources` table. -/
structure SourceRow where
  id : Nat
  animeId : Nat
  providerName : String
  mediaId : String
  isFavorited : Bool
  createdAt : Nat
  deriving Repr, DecidableEq

/-- A row of the `episode` table. -/
structure EpisodeRow where
  id : Nat
  sourceId : Nat
  episodeIndex : Nat
  providerEpisodeId : String
  title : String
  sourceUrl : Option String
  fetchedAt : Nat
  commentCount : Nat
  deriving Repr, DecidableEq

/-- A row of the `comment` table (surrogate primary key omitted; the natural
key `(episode_id, cid)` is what all the code paths use). `t` is the comment
time in centiseconds (the Python float `round(seconds, 2)` scaled by 100). -/
structure CommentRow where
  episodeId : Nat
  cid : String
  p : String
  m : String
  t : Nat
  deriving Repr, DecidableEq

/-- A row of the `anime_metadata` table (external ids; any subset null). -/
structure MetadataRow where
  animeId : Nat
  tmdbId : Option String
  imdbId : Option String
  tvdbId : Option String
  doubanId : Option String
  deriving Repr, DecidableEq

/-- The database state the import pipeline touches, plus the AUTO_INCREMENT
counters of the two tables whose fresh ids the code reads back
(`cursor.lastrowid` / the id of the row just inserted). -/
structure Db where
  animes : List AnimeRow
  sources : List SourceRow
  episodes : List EpisodeRow
  comments : List CommentRow
  metadata : List MetadataRow
  nextAnimeId : Nat
  nextSourceId : Nat
  deriving Repr, DecidableEq

/-- Python truthiness of an optional string column: SQL NULL and the empty
string are falsy (`if not existing_image_url`). -/
def strFalsy : Option String → Bool
  | none => true
  | some s => s.isEmpty

/-- `INSERT IGNORE INTO anime_metadata (anime_id) VALUES (%s)`: append a
stub metadata row unless one already exists for the work. -/
def metaWithRow (md : List MetadataRow) (aid : Nat) : List MetadataRow :=
  if md.any (fun m => m.animeId = aid) then md
  else md ++ [{ animeId := aid, tmdbId := none, imdbId := none
                tvdbId := none, doubanId := none }]

/-! ### crud.get_or_create_anime (src/crud.py lines 413-457) -/

/-- `SELECT id, image_url, local_image_path FROM anime WHERE title=%s AND season=%s`
(fetchone: first matching row). -/
def findAnime (db : Db) (title : String) (season : Nat) : Option AnimeRow :=
  db.animes.find? (fun a => a.title = title && a.season = season)

/-- Embeds crud.get_or_create_anime: look the work up by `(title, season)`;
if found, fill in a missing poster URL / local path when this call supplies
one, and return the existing id; otherwise insert a new `anime` row (plus
`INSERT IGNORE` stub rows for `anime_metadata` and `anime_aliases`; the
aliases table is not modelled as nothing in the claims reads it). -/
def getOrCreateAnime (db : Db) (title mediaType : String) (season : Nat)
    (imageUrl localImagePath : Option String) (now : Nat) : Db × Nat :=
  match findAnime db title season with
  | some a =>
    let setImg := strFalsy a.imageUrl && !(strFalsy imageUrl)
    let setPath := strFalsy a.localImagePath && !(strFalsy localImagePath)
    if setImg || setPath then
      let upd := fun (x : AnimeRow) =>
        if x.id = a.id then
          { x with
            imageUrl := if setImg then imageUrl else x.imageUrl
            localImagePath := if setPath then localImagePath else x.localImagePath }
        else x
      ({ db with animes := db.animes.map upd }, a.id)
    else (db, a.id)
  | none =>
    let aid := db.nextAnimeId
    let row : AnimeRow :=
      { id := aid, title := title, mediaType := mediaType, season := season
        imageUrl := imageUrl, localImagePath := localImagePath, createdAt := now }
    ({ db with animes := db.animes ++ [row]
               metadata := metaWithRow db.metadata aid
               nextAnimeId := aid + 1 }, aid)

/-! ### crud.update_metadata_if_empty (src/crud.py lines 1012-1041) -/

/-- Embeds crud.update_metadata_if_empty: ensure the `anime_metadata` row
exists (`INSERT IGNORE`), then write each provided id only into a column
that is currently empty (write-if-empty). -/
def updateMetadataIfEmpty (db : Db) (aid : Nat)
    (tmdbId imdbId tvdbId doubanId : Option String) : Db :=
  let withRow := metaWithRow db.metadata aid
  match withRow.find? (fun m => m.animeId = aid) with
  | none => { db with metadata := withRow }
  | some cur =>
    let setT := strFalsy cur.tmdbId && !(strFalsy tmdbId)
    let setI := strFalsy cur.imdbId && !(strFalsy imdbId)
    let setV := strFalsy cur.tvdbId && !(strFalsy tvdbId)
    let setD := strFalsy cur.doubanId && !(strFalsy doubanId)
    if setT || setI || setV || setD then
      { db with metadata := withRow.map (fun m =>
          if m.animeId = aid then
            { m with
              tmdbId := if setT then tmdbId else m.tmdbId
              imdbId := if setI then imdbId else m.imdbId
              tvdbId := if setV then tvdbId else m.tvdbId
              doubanId := if setD then doubanId else m.doubanId }
          else m) }
    else { db with metadata := withRow }

/-! ### crud.link_source_to_anime (src/crud.py lines 459-471) -/

/-- Embeds crud.link_source_to_anime: `INSERT IGNORE` on the natural key
`(anime_id, provider_name, media_id)`, then `SELECT id` of the (now
existing) row.  Returns the id of the first row matching the key. -/
def linkSourceToAnime (db : Db) (aid : Nat) (provider mediaId : String)
    (now : Nat) : Db × Nat :=
  let key := fun (s : SourceRow) =>
    s.animeId = aid && s.providerName = provider && s.mediaId = mediaId
  match db.sources.find? key with
  | some s => (db, s.id)
  | none =>
    let sid := db.nextSourceId
    let row : SourceRow :=
      { id := sid, animeId := aid, providerName := provider, mediaId := mediaId
        isFavorited := false, createdAt := now }
    ({ db with sources := db.sources ++ [row], nextSourceId := sid + 1 }, sid)

/-! ### crud.create_episode_if_not_exists (src/crud.py lines 473-501) -/

/-- `SELECT id FROM episode WHERE source_id=%s AND episode_index=%s` (fetchone). -/
def findEpisodeByKey (db : Db) (sid idx : Nat) : Option EpisodeRow :=
  db.episodes.find? (fun e => e.sourceId = sid && e.episodeIndex = idx)

/-- `SELECT id FROM anime_sources WHERE anime_id=%s ORDER BY id ASC`. -/
def sourceIdsOfAnime (db : Db) (aid : Nat) : List Nat :=
  ((db.sources.filter (fun s => s.animeId = aid)).map (fun s => s.id)).insertionSort
    (fun x y => x ≤ y)

/-- Embeds crud.create_episode_if_not_exists: if a row with the natural key
`(source_id, episode_index)` exists, return its id; otherwise rank the
source among its work's sources by ascending id (`list.index` + 1, raising
ValueError when the source is not linked to the work), build the
deterministic id, and insert the new row. -/
def createEpisodeIfNotExists (db : Db) (aid sid idx : Nat)
    (title : String) (url : Option String) (providerEpisodeId : String)
    (now : Nat) : Except String (Db × Nat) :=
  match findEpisodeByKey db sid idx with
  | some e => .ok (db, e.id)
  | none =>
    match (sourceIdsOfAnime db aid).indexOf? sid with
    | none => .error "Source ID does not belong to Anime ID"
    | some i =>
      let sourceOrder := i + 1
      let newId := genEpisodeId aid sourceOrder idx
      let row : EpisodeRow :=
        { id := newId, sourceId := sid, episodeIndex := idx
          providerEpisodeId := providerEpisodeId, title := title
          sourceUrl := url, fetchedAt := now, commentCount := 0 }
      .ok ({ db with episodes := db.episodes ++ [row] }, newId)

/-! ### Source lookup by id -/

/-- `SELECT anime_id FROM anime_sources WHERE id=%s` (fetchone). -/
def findSourceById (db : Db) (sid : Nat) : Option SourceRow :=
  db.sources.find? (fun s => s.id = sid)

/-! ### crud.bulk_insert_comments (src/crud.py lines 504-519) -/

/-- One element of the comment list handed to `bulk_insert_comments`
(a Python dict with keys cid, p, m, t; `t` in centiseconds, see
`CommentRow`). -/
structure CommentDict where
  cid : String
  p : String
  m : String
  t : Nat
  deriving Repr, DecidableEq

/-- One row of `INSERT IGNORE INTO comment ...` executed by executemany:
the row is inserted only when no row with the natural key
`(episode_id, cid)` exists yet (rows earlier in the same batch included). -/
def insertIgnoreComment (acc : List CommentRow × Nat) (eid : Nat)
    (c : CommentDict) : List CommentRow × Nat :=
  if acc.1.any (fun r => r.episodeId = eid && r.cid = c.cid) then acc
  else (acc.1 ++ [{ episodeId := eid, cid := c.cid, p := c.p, m := c.m, t := c.t }],
        acc.2 + 1)

/-- Embeds crud.bulk_insert_comments: early return 0 on an empty list;
`INSERT IGNORE` every comment on the natural key `(episode_id, cid)`;
if any row was inserted, bump the episode's denormalized
`comment_count` by the number of inserted rows.  Returns the new state
and the affected-row count. -/
def bulkInsertComments (db : Db) (eid : Nat) (cs : List CommentDict) :
    Db × Nat :=
  if cs.isEmpty then (db, 0)
  else
    let res := cs.foldl (fun acc c => insertIgnoreComment acc eid c)
      (db.comments, 0)
    let db1 := { db with comments := res.1 }
    if res.2 > 0 then
      ({ db1 with episodes := db1.episodes.map (fun e =>
          if e.id = eid then { e with commentCount := e.commentCount + res.2 }
          else e) }, res.2)
    else (db1, res.2)

/-! ### crud.toggle_source_favorite_status (src/crud.py lines 1237-1259) -/

/-- Embeds crud.toggle_source_favorite_status: look up the source's
`anime_id` (returning false when the source does not exist), then in one
transaction clear `is_favorited` on every other source of the same work
and flip the target source's flag. -/
def toggleSourceFavoriteStatus (db : Db) (sid : Nat) : Db × Bool :=
  match findSourceById db sid with
  | none => (db, false)
  | some src =>
    let aid := src.animeId
    let cleared := db.sources.map (fun s =>
      if s.animeId = aid && s.id ≠ sid then { s with isFavorited := false }
      else s)
    let flipped := cleared.map (fun s =>
      if s.id = sid then { s with isFavorited := !s.isFavorited } else s)
    ({ db with sources := flipped }, true)

/-! ### crud.update_episode_info (src/crud.py lines 857-901) -/

/-- models.EpisodeInfoUpdate (src/models.py lines 132-139), the payload of
the episode-edit endpoint.  Its only fields are `title`, `episodeIndex`
(serialization alias episode_index) and `sourceUrl` (alias source_url);
pydantic aliases create no extra attributes, and the model declares no
source_id or original_episode_index field. -/
structure EpisodeInfoUpdate where
  title : String
  episodeIndex : Nat
  sourceUrl : Option String
  deriving Repr, DecidableEq

/-- Embeds crud.update_episode_info (src/crud.py lines 857-901).  The body
first looks the row up by id (line 867); then every continuation
dereferences payload attributes `models.EpisodeInfoUpdate` does not
define.  When the id is found, the duplicate-index check at line 891
reads `update_data.source_id` and `update_data.episode_index`; when it is
missing, the fallback log line at line 877 already reads
`update_data.source_id` and `update_data.original_episode_index` (the
pydantic attributes are `episodeIndex` and `sourceUrl`).  Each access
raises AttributeError, which the handler at lines 897-901 catches: it
rolls back, re-raises only ValueError, and otherwise returns False.  So
on every input the function edits nothing, never raises the 409
ValueError, and returns false; the fallback retarget its docstring
documents is unreachable. -/
def updateEpisodeInfo (db : Db) (episodeId : Nat)
    (_updateData : EpisodeInfoUpdate) : Except String (Db × Bool) :=
  match db.episodes.find? (fun e => e.id = episodeId) with
  | some _ => .ok (db, false)
  | none => .ok (db, false)

/-! ### crud.mark_interrupted_tasks_as_failed (src/crud.py lines 1555-1564)

The `task_history.status` column stores the Chinese display strings of the
task states (the `TaskStatus` enum lives in the task_manager module, which
is not among the source files; the literals below are the ones crud.py
itself writes and compares). -/

/-- Modelled from the spec: the DB string of `TaskStatus.RUNNING`
(spec §4.5), written as "运行中" by crud.py. -/
def STATUS_RUNNING : String := "运行中"

/-- Modelled from the spec: the DB string of `TaskStatus.PAUSED`,
written as "已暂停" by crud.py. -/
def STATUS_PAUSED : String := "已暂停"

/-- Modelled from the spec: the DB string of `TaskStatus.FAILED`,
written as "失败" by crud.py. -/
def STATUS_FAILED : String := "失败"

/-- The description crud.py writes for interrupted tasks; the spec renders
it in English as "interrupted by restart". -/
def INTERRUPTED_BY_RESTART : String := "因程序重启而中断"

/-- A row of the `task_history` table. -/
structure TaskRow where
  id : String
  title : String
  status : String
  progress : Nat
  description : String
  createdAt : Nat
  finishedAt : Option Nat
  deriving Repr, DecidableEq

/-- Embeds crud.mark_interrupted_tasks_as_failed:
`UPDATE task_history SET status='失败', description='因程序重启而中断',
finished_at=NOW() WHERE status IN ('运行中','已暂停')`; returns the new
table and the affected-row count.  Invoked from the startup lifespan
(src/main.py lines 41-46). -/
def markInterruptedTasksAsFailed (rows : List TaskRow) (now : Nat) :
    List TaskRow × Nat :=
  (rows.map (fun r =>
      if r.status = STATUS_RUNNING || r.status = STATUS_PAUSED then
        { r with status := STATUS_FAILED
                 description := INTERRUPTED_BY_RESTART
                 finishedAt := some now }
      else r),
   rows.countP (fun r => r.status = STATUS_RUNNING || r.status = STATUS_PAUSED))

/-! ### crud.save_tmdb_episode_group_mappings (src/crud.py lines 717-776)
and the TMDB group models (src/models.py lines 390-413). -/

/-- models.TMDBEpisodeInGroupDetail. -/
structure TMDBEpisodeInGroupDetail where
  id : Nat
  name : String
  episode_number : Nat
  season_number : Nat
  air_date : Option String
  overview : Option String
  order : Nat
  deriving Repr, DecidableEq

/-- models.TMDBGroupInGroupDetail. -/
structure TMDBGroupInGroupDetail where
  id : String
  name : String
  order : Nat
  episodes : List TMDBEpisodeInGroupDetail
  deriving Repr, DecidableEq

/-- models.TMDBEpisodeGroupDetails (the `network` field, an arbitrary JSON
object unused by the mapping code, is left out). -/
structure TMDBEpisodeGroupDetails where
  id : String
  name : String
  description : Option String
  episode_count : Nat
  group_count : Nat
  groups : List TMDBGroupInGroupDetail
  type : Nat
  deriving Repr, DecidableEq

/-- A row of the `tmdb_episode_mapping` table. -/
structure TmdbMappingRow where
  tmdbTvId : Nat
  tmdbEpisodeGroupId : String
  tmdbEpisodeId : Nat
  tmdbSeasonNumber : Nat
  tmdbEpisodeNumber : Nat
  customSeasonNumber : Nat
  customEpisodeNumber : Nat
  absoluteEpisodeNumber : Nat
  deriving Repr, DecidableEq

/-- The rows `save_tmdb_episode_group_mappings` prepares: groups sorted by
their `order` field (Python `sorted` is stable, as is insertion sort),
empty groups skipped, and within each group one row per episode carrying
`(custom_season := group.order, custom_episode := enumerate index + 1,
absolute := episode.order + 1)`. -/
def tmdbMappingRows (tvId : Nat) (groupId : String)
    (gd : TMDBEpisodeGroupDetails) : List TmdbMappingRow :=
  ((gd.groups.insertionSort (fun a b => a.order ≤ b.order)).map (fun g =>
    if g.episodes.isEmpty then []
    else g.episodes.enum.map (fun ie =>
      { tmdbTvId := tvId, tmdbEpisodeGroupId := groupId
        tmdbEpisodeId := ie.2.id
        tmdbSeasonNumber := ie.2.season_number
        tmdbEpisodeNumber := ie.2.episode_number
        customSeasonNumber := g.order
        customEpisodeNumber := ie.1 + 1
        absoluteEpisodeNumber := ie.2.order + 1 }))).flatten

/-- Embeds crud.save_tmdb_episode_group_mappings: inside one transaction,
delete every row of the group and bulk-insert the recomputed rows; any
exception rolls the transaction back (old rows kept) and is re-raised.
The exception possibility of the DB driver is injected as `fail`. -/
def saveTmdbEpisodeGroupMappings (table : List TmdbMappingRow)
    (tvId : Nat) (groupId : String) (gd : TMDBEpisodeGroupDetails)
    (fail : Bool) : List TmdbMappingRow × Except String Unit :=
  if fail then (table, .error "db error")
  else ((table.filter (fun r => r.tmdbEpisodeGroupId ≠ groupId))
          ++ tmdbMappingRows tvId groupId gd, .ok ())

/-! ### The generic import task (src/api/ui.py lines 1183-1263)

The task first performs all network work (GetEpisodes, then GetComments
for every episode, buffered in `episode_comment_data`), and only then
starts the database writes.  Network outcomes are passed in as values:
`episodesResult` is the outcome of `scraper.get_episodes`, and
`commentsResult` maps a provider episode id to the outcome of
`scraper.get_comments`.  An exception anywhere (including the cooperative
abort raised from inside a progress callback during a fetch) surfaces as
the corresponding step returning `.error`. -/

/-- models.ProviderEpisodeInfo. -/
structure ProviderEpisodeInfo where
  provider : String
  episodeId : String
  title : String
  episodeIndex : Nat
  url : Option String
  deriving Repr, DecidableEq

/-- Modelled from the spec (§4.5): the final state the task manager
records for the task.  The task-manager module is not among the source
files; per the spec, a raised `TaskSuccess` is translated to COMPLETED
with its message, and any other exception to FAILED. -/
inductive TaskOutcome where
  | completed (msg : String)
  | failed (msg : String)
  deriving Repr, DecidableEq

/-- The comment-fetch loop of the import task (step 2): fetch every
episode's comments into memory, in order, stopping at the first raised
exception. -/
def collectComments (f : String → Except String (List CommentDict)) :
    List ProviderEpisodeInfo →
    Except String (List (ProviderEpisodeInfo × List CommentDict))
  | [] => .ok []
  | ep :: rest =>
    match f ep.episodeId with
    | .error e => .error e
    | .ok cs =>
      match collectComments f rest with
      | .error e => .error e
      | .ok tail => .ok ((ep, cs) :: tail)

/-- `anime_title.replace(":", "：")`. -/
def normalizeTitle (s : String) : String :=
  String.mk (s.toList.map (fun c => if c = ':' then '：' else c))

/-- The TypeError Python raises at ui.py line 1243: the call passes five
positional arguments to crud.get_or_create_anime, whose definition
(src/crud.py line 413) declares six parameters with no default for
local_image_path. -/
def TYPE_ERROR_GET_OR_CREATE_ANIME : String :=
  "TypeError: get_or_create_anime() missing 1 required positional argument: local_image_path"

set_option linter.unusedVariables false in
/-- Embeds generic_import_task (src/api/ui.py lines 1183-1263): normalize
the title; fetch the episode list (an empty list raises TaskSuccess);
keep only the first episode for movies; fetch all comments into memory.
The database phase then opens with the five-argument
crud.get_or_create_anime call at ui.py line 1243, which raises TypeError
before any database statement runs (crud.py line 413 requires six
positional arguments); the handler at ui.py lines 1260-1263 re-raises,
so the task ends FAILED with the database untouched.  The write pipeline
below that call — ui.py line 1252 even names crud.get_or_create_episode,
a function src/crud.py does not define — is unreachable. -/
def genericImportTask (db : Db) (provider mediaId animeTitle mediaType : String)
    (season : Nat) (currentEpisodeIndex : Option Nat)
    (imageUrl doubanId tmdbId imdbId tvdbId : Option String)
    (episodesResult : Except String (List ProviderEpisodeInfo))
    (commentsResult : String → Except String (List CommentDict))
    (now : Nat) : Db × TaskOutcome :=
  let _normalizedTitle := normalizeTitle animeTitle
  match episodesResult with
  | .error e => (db, .failed e)
  | .ok eps0 =>
    if eps0.isEmpty then
      let msg :=
        match currentEpisodeIndex with
        | some i => "未能找到第 " ++ toString i ++ " 集。"
        | none => "未能获取到任何分集。"
      (db, .completed msg)
    else
      let eps := if mediaType = "movie" then eps0.take 1 else eps0
      match collectComments commentsResult eps with
      | .error e => (db, .failed e)
      | .ok _buffered => (db, .failed TYPE_ERROR_GET_OR_CREATE_ANIME)

/-! ### parse_search_keyword (src/api/ui.py lines 32-89)

The regular expressions are embedded as explicit anchored matchers.  Each
pattern has the shape `^(title)<suffix>$` with a non-greedy title, so
matching tries every split point from the shortest title upwards and
succeeds at the first split whose remainder matches the suffix.  Python's
`\s` / `\d` / `str.strip` are modelled over ASCII whitespace and digits
(plus the ideographic space for `\s`). -/

/-- Python `\s` (whitespace class), covering the characters occurring in
practice: ASCII whitespace plus NBSP and the ideographic space. -/
def pySpace (c : Char) : Bool :=
  c = ' ' || c = '\t' || c = '\n' || c = '\r' ||
  c = Char.ofNat 11 || c = Char.ofNat 12 ||
  c = Char.ofNat 160 || c = Char.ofNat 12288

/-- Python `str.strip()` on a char list. -/
def pyStripChars (l : List Char) : List Char :=
  ((l.dropWhile pySpace).reverse.dropWhile pySpace).reverse

/-- Python `str.strip()`. -/
def pyStrip (s : String) : String := String.mk (pyStripChars s.toList)

/-- `int()` of a nonempty ASCII digit string. -/
def digitsToNat (l : List Char) : Nat :=
  l.foldl (fun n c => n * 10 + (c.toNat - 48)) 0

/-- Suffix matcher of pattern 1, `\s*S(\d{1,2})E(\d{1,4})$` (IGNORECASE):
returns `(season, episode)` when the whole char list matches. -/
def seSuffix (l : List Char) : Option (Nat × Nat) :=
  match l.dropWhile pySpace with
  | [] => none
  | c :: rest =>
    if c = 'S' || c = 's' then
      let ds := rest.takeWhile Char.isDigit
      let after := rest.drop ds.length
      if 1 ≤ ds.length && ds.length ≤ 2 then
        match after with
        | [] => none
        | e :: rest2 =>
          if (e = 'E' || e = 'e') && rest2.all Char.isDigit
              && 1 ≤ rest2.length && rest2.length ≤ 4 then
            some (digitsToNat ds, digitsToNat rest2)
          else none
      else none
    else none

/-- Non-greedy title scan: try the split with the shortest title first;
`titleAtLeastOne = true` embeds `.+?` (pattern 1), `false` embeds `.*?`
(patterns 2-6, where the title may be empty). -/
def scanSplits {β : Type} (f : List Char → Option β) (titleAtLeastOne : Bool) :
    List Char → List Char → Option (List Char × β)
  | acc, rest =>
    match (if titleAtLeastOne && acc.isEmpty then none else f rest) with
    | some b => some (acc, b)
    | none =>
      match rest with
      | [] => none
      | c :: rs => scanSplits f titleAtLeastOne (acc ++ [c]) rs

/-- Suffix matcher of pattern 2, `\s*(?:S|Season)\s*(\d{1,2})$` (IGNORECASE). -/
def seasonWordSuffix (l : List Char) : Option Nat :=
  let digitsPart := fun (r : List Char) =>
    let r1 := r.dropWhile pySpace
    if r1.all Char.isDigit && 1 ≤ r1.length && r1.length ≤ 2 then
      some (digitsToNat r1)
    else none
  match l.dropWhile pySpace with
  | c :: rest =>
    if c = 'S' || c = 's' then
      match digitsPart rest with
      | some n => some n
      | none =>
        match rest with
        | e :: a :: s :: o :: n :: rest2 =>
          if (e = 'e' || e = 'E') && (a = 'a' || a = 'A') &&
             (s = 's' || s = 'S') && (o = 'o' || o = 'O') &&
             (n = 'n' || n = 'N') then digitsPart rest2 else none
        | _ => none
    else none
  | [] => none

/-- The character class `[一二三四五六七八九十\d]`. -/
def cnNumChar (c : Char) : Bool :=
  c = '一' || c = '二' || c = '三' || c = '四' || c = '五' || c = '六' ||
  c = '七' || c = '八' || c = '九' || c = '十' || c.isDigit

/-- Suffix matcher of pattern 3, `\s*第\s*([一二三四五六七八九十\d]+)\s*[季部]$`:
returns the captured group. -/
def cnSeasonSuffix (l : List Char) : Option (List Char) :=
  match l.dropWhile pySpace with
  | c :: rest =>
    if c = '第' then
      let r1 := rest.dropWhile pySpace
      let grp := r1.takeWhile cnNumChar
      if grp.isEmpty then none
      else
        match (r1.drop grp.length).dropWhile pySpace with
        | [k] => if k = '季' || k = '部' then some grp else none
        | _ => none
    else none
  | [] => none

/-- The handler of pattern 3: the single-character Chinese numeral map,
falling back to `int()` of the group (a ValueError — any non-ASCII-digit
character — makes the parser skip to the next pattern). -/
def cnSeasonValue (grp : List Char) : Option Nat :=
  match grp with
  | ['一'] => some 1
  | ['二'] => some 2
  | ['三'] => some 3
  | ['四'] => some 4
  | ['五'] => some 5
  | ['六'] => some 6
  | ['七'] => some 7
  | ['八'] => some 8
  | ['九'] => some 9
  | ['十'] => some 10
  | _ => if grp.all Char.isDigit && !grp.isEmpty then some (digitsToNat grp) else none

/-- Unicode Roman numeral value (`Ⅰ` U+2160 … `Ⅻ` U+216B). -/
def unicodeRomanValue (c : Char) : Option Nat :=
  if 0x2160 ≤ c.toNat && c.toNat ≤ 0x216B then some (c.toNat - 0x2160 + 1)
  else none

/-- Suffix matcher of pattern 4, `\s*([Ⅰ-Ⅻ])$`. -/
def unicodeRomanSuffix (l : List Char) : Option Nat :=
  match l.dropWhile pySpace with
  | [c] => unicodeRomanValue c
  | _ => none

/-- `[IVXLCDM]` (IGNORECASE). -/
def isRomanChar (c : Char) : Bool :=
  let u := c.toUpper
  u = 'I' || u = 'V' || u = 'X' || u = 'L' || u = 'C' || u = 'D' || u = 'M'

/-- The value of one Roman letter (after `.upper()`). -/
def romanCharValue (c : Char) : Nat :=
  match c.toUpper with
  | 'I' => 1 | 'V' => 5 | 'X' => 10 | 'L' => 50
  | 'C' => 100 | 'D' => 500 | 'M' => 1000 | _ => 0

/-- Embeds `_roman_to_int` (src/api/ui.py lines 32-47): left-to-right
accumulation with the subtractive rule for a smaller value before a
larger one. -/
def romanToInt : List Char → Nat
  | [] => 0
  | [c] => romanCharValue c
  | c1 :: c2 :: rest =>
    if romanCharValue c1 < romanCharValue c2 then
      (romanCharValue c2 - romanCharValue c1) + romanToInt rest
    else
      romanCharValue c1 + romanToInt (c2 :: rest)
termination_by l => l.length

/-- Suffix matcher of pattern 5, `\s+([IVXLCDM]+)$` (IGNORECASE): note the
mandatory whitespace. -/
def asciiRomanSuffix (l : List Char) : Option Nat :=
  match l with
  | c :: _ =>
    if pySpace c then
      let r := l.dropWhile pySpace
      if !r.isEmpty && r.all isRomanChar then some (romanToInt r) else none
    else none
  | [] => none

/-- Suffix matcher of pattern 6, `\s+(\d{1,2})$`. -/
def trailingNumberSuffix (l : List Char) : Option Nat :=
  match l with
  | c :: _ =>
    if pySpace c then
      let r := l.dropWhile pySpace
      if r.all Char.isDigit && 1 ≤ r.length && r.length ≤ 2 then
        some (digitsToNat r)
      else none
    else none
  | [] => none

/-- The result of parse_search_keyword. -/
structure ParsedKeyword where
  title : String
  season : Option Nat
  episode : Option Nat
  deriving Repr, DecidableEq

/-- One iteration of the season-pattern loop: if the pattern matches and
its handler yields a truthy season, apply the year guard
(`len(title) > 4 and title[-4:].isdigit()` on the stripped title); a
falsy/failed handler or a guarded title falls through to the next
pattern. -/
def trySeasonPattern (kw : List Char) (f : List Char → Option Nat) :
    Option ParsedKeyword :=
  match scanSplits (fun rest => (f rest).map (fun n => n)) false [] kw with
  | none => none
  | some (titleChars, n) =>
    let t := pyStripChars titleChars
    if n ≠ 0 && !(t.length > 4 && (t.drop (t.length - 4)).all Char.isDigit) then
      some { title := String.mk t, season := some n, episode := none }
    else none

/-- Embeds parse_search_keyword (src/api/ui.py lines 48-89): strip the
keyword; try the `SxxEyy` pattern first; then the five season patterns in
order; otherwise return the whole keyword as the title. -/
def parseSearchKeyword (keyword : String) : ParsedKeyword :=
  let kw := pyStripChars keyword.toList
  match scanSplits seSuffix true [] kw with
  | some (titleChars, se) =>
    { title := pyStrip (String.mk titleChars)
      season := some se.1, episode := some se.2 }
  | none =>
    match trySeasonPattern kw seasonWordSuffix with
    | some r => r
    | none =>
      match trySeasonPattern kw
          (fun rest => (cnSeasonSuffix rest).bind cnSeasonValue) with
      | some r => r
      | none =>
        match trySeasonPattern kw unicodeRomanSuffix with
        | some r => r
        | none =>
          match trySeasonPattern kw asciiRomanSuffix with
          | some r => r
          | none =>
            match trySeasonPattern kw trailingNumberSuffix with
            | some r => r
            | none =>
              { title := String.mk kw, season := none, episode := none }

/-! ### TencentScraper.get_comments (src/scrapers/tencent.py lines 465-521)

The network part (`_internal_get_comments`) is taken as the input list;
the embedding covers the normalization pipeline: dedup by upstream id,
group by content, collapse duplicate groups onto the earliest member with
an " X{n}" suffix, then format.  `time_offset` is an upstream decimal
string holding milliseconds (both use sites apply `int()` to it); it is
modelled as that integer.  Timestamps are carried in centiseconds
(`round(ms / 1000.0, 2)` scaled by 100, with half-to-even rounding; the
artifacts of binary floating point on values not exactly representable
are not modelled). -/

/-- models of tencent.py: `content_style` is `Union[TencentCommentContentStyle,
str, None]`; only the object alternative carries style data. -/
inductive TencentContentStyle where
  | obj (color : Option String) (position : Option Int)
  | strVal (s : String)
  | null
  deriving Repr, DecidableEq

/-- tencent.TencentComment. -/
structure TencentComment where
  id : String
  timeOffset : Nat
  content : String
  contentStyle : TencentContentStyle
  deriving Repr, DecidableEq

/-- One step of `{c.id: c for c in comments}`: an existing key keeps its
position and takes the new value, a new key is appended. -/
def dedupStep (acc : List TencentComment) (c : TencentComment) :
    List TencentComment :=
  if acc.any (fun x => x.id = c.id) then
    acc.map (fun x => if x.id = c.id then c else x)
  else acc ++ [c]

/-- `list({c.id: c for c in comments}.values())`: deduplicate by upstream
cid, keys in first-appearance order, each key holding the last value. -/
def dedupById (l : List TencentComment) : List TencentComment :=
  l.foldl dedupStep []

/-- One step of the `defaultdict(list)` grouping loop. -/
def groupStep (acc : List (String × List TencentComment))
    (c : TencentComment) : List (String × List TencentComment) :=
  if acc.any (fun p => p.1 = c.content) then
    acc.map (fun p => if p.1 = c.content then (p.1, p.2 ++ [c]) else p)
  else acc ++ [(c.content, [c])]

/-- `grouped_by_content`: keys in first-appearance order, each key mapped
to its comments in list order. -/
def groupByContent (l : List TencentComment) :
    List (String × List TencentComment) :=
  l.foldl groupStep []

/-- Python `min(group, key=lambda x: int(x.time_offset))` with `c0` the
first element: keeps the first element attaining the minimum. -/
def earliestIn (c0 : TencentComment) (rest : List TencentComment) :
    TencentComment :=
  rest.foldl (fun best c => if c.timeOffset < best.timeOffset then c else best) c0

/-- Processing of one content group: a singleton passes through; a larger
group is replaced by its earliest-timestamp member with the content
suffixed by " X{n}".  (An empty group never occurs.) -/
def processGroup (g : List TencentComment) : List TencentComment :=
  match g with
  | [] => []
  | c0 :: rest =>
    if rest.isEmpty then [c0]
    else
      let first := earliestIn c0 rest
      [{ first with content := first.content ++ " X" ++ toString g.length }]

/-- Half-to-even rounding of milliseconds to centiseconds
(`round(ms / 1000.0, 2)` scaled by 100). -/
def roundCenti (ms : Nat) : Nat :=
  let q := ms / 10
  let r := ms % 10
  if r < 5 then q else if 5 < r then q + 1 else if q % 2 = 0 then q else q + 1

/-- `f"{timestamp:.2f}"` of a centisecond value. -/
def fmtCenti (cs : Nat) : String :=
  toString (cs / 100) ++ "." ++
    (if cs % 100 < 10 then "0" ++ toString (cs % 100) else toString (cs % 100))

/-- The danmaku mode derived from the content style: position 2 → top (5),
position 3 → bottom (4), otherwise scroll (1). -/
def tencentMode (st : TencentContentStyle) : Nat :=
  match st with
  | .obj _ pos => if pos = some 2 then 5 else if pos = some 3 then 4 else 1
  | _ => 1

/-- The color derived from the content style: a truthy decimal string is
parsed with `int()` (failure keeps the default), otherwise white
16777215. -/
def tencentColor (st : TencentContentStyle) : Int :=
  match st with
  | .obj (some s) _ =>
    if s.isEmpty then 16777215
    else match s.toInt? with
      | some n => n
      | none => 16777215
  | _ => 16777215

/-- The formatting step: one output dict per processed comment, with
`p = "t,mode,color,[provider]"` and `t` the centisecond timestamp. -/
def formatTencentComment (provider : String) (c : TencentComment) :
    CommentDict :=
  let cs := roundCenti c.timeOffset
  { cid := c.id
    p := fmtCenti cs ++ "," ++ toString (tencentMode c.contentStyle) ++ ","
          ++ toString (tencentColor c.contentStyle) ++ ",[" ++ provider ++ "]"
    m := c.content
    t := cs }

/-- Embeds TencentScraper.get_comments applied to an already-fetched
comment list: early return on empty; dedup by cid; group by content;
collapse groups of size ≥ 2; format. -/
def tencentGetComments (provider : String) (l : List TencentComment) :
    List CommentDict :=
  if l.isEmpty then []
  else
    let u := dedupById l
    let processed := ((groupByContent u).map (fun p => processGroup p.2)).flatten
    processed.map (formatTencentComment provider)

/-! ### Statement-level definitions -/

/-- The 1-based rank of source `sid` among the sources of work `aid`
ordered by id ascending, stated independently of the sorting code: one
plus the number of sibling sources with a smaller id. -/
def sourceRank (db : Db) (aid sid : Nat) : Nat :=
  1 + (db.sources.filter (fun s => s.animeId = aid)).countP (fun s => s.id < sid)

/-- The favorite invariant of spec §8: a work has at most one favorited
source. -/
def atMostOneFavorited (db : Db) (aid : Nat) : Prop :=
  db.sources.countP (fun s => s.animeId = aid && s.isFavorited) ≤ 1

/-- An empty database. -/
def emptyDb : Db :=
  { animes := [], sources := [], episodes := [], comments := []
    metadata := [], nextAnimeId := 1, nextSourceId := 1 }

/-- Example database for the deterministic-id claims: work 42 with two
sources (ids 2 and 5, so source 5 has rank 2). -/
def rankDb : Db :=
  { emptyDb with
    animes := [{ id := 42, title := "某作品", mediaType := "tv_series"
                 season := 1, imageUrl := none, localImagePath := none
                 createdAt := 0 }]
    sources :=
      [{ id := 2, animeId := 42, providerName := "tencent", mediaId := "a"
         isFavorited := false, createdAt := 0 },
       { id := 5, animeId := 42, providerName := "bilibili", mediaId := "b"
         isFavorited := false, createdAt := 0 }]
    nextAnimeId := 43, nextSourceId := 6 }

/-- Example database with an overflowing `anime_id` (does not fit the
six-digit slot). -/
def overflowDb : Db :=
  { emptyDb with
    animes := [{ id := 1000000, title := "溢出", mediaType := "tv_series"
                 season := 1, imageUrl := none, localImagePath := none
                 createdAt := 0 }]
    sources :=
      [{ id := 1, animeId := 1000000, providerName := "tencent", mediaId := "x"
         isFavorited := false, createdAt := 0 }]
    nextAnimeId := 1000001, nextSourceId := 2 }

/-- Example database for the favorite-toggle claim: one work with two
sources, the first favorited. -/
def favDb : Db :=
  { emptyDb with
    sources :=
      [{ id := 4, animeId := 9, providerName := "tencent", mediaId := "a"
         isFavorited := true, createdAt := 0 },
       { id := 5, animeId := 9, providerName := "iqiyi", mediaId := "b"
         isFavorited := false, createdAt := 0 }]
    nextSourceId := 6 }

/-- Example database for the episode-edit claim: a source with two
episodes; id 77 does not exist. -/
def editDb : Db :=
  { emptyDb with
    sources :=
      [{ id := 3, animeId := 1, providerName := "tencent", mediaId := "a"
         isFavorited := false, createdAt := 0 }]
    episodes :=
      [{ id := 11, sourceId := 3, episodeIndex := 1, providerEpisodeId := "v1"
         title := "第一集", sourceUrl := none, fetchedAt := 0, commentCount := 0 },
       { id := 12, sourceId := 3, episodeIndex := 2, providerEpisodeId := "v2"
         title := "第二集", sourceUrl := none, fetchedAt := 0, commentCount := 0 }] }

/-- Default row used with `List.getD` in statements about the task table. -/
def defaultTaskRow : TaskRow :=
  { id := "", title := "", status := "", progress := 0, description := ""
    createdAt := 0, finishedAt := none }

/-- Example task-history table: one running task. -/
def interruptRows : List TaskRow :=
  [{ id := "t1", title := "导入任务", status := STATUS_RUNNING, progress := 50
     description := "进行中", createdAt := 0, finishedAt := none }]

/-- The four-duplicate example of the comment-collapse claim: text "233"
at 10.0 s, 10.5 s, 11.0 s and 12.0 s. -/
def dupComments : List TencentComment :=
  [{ id := "c1", timeOffset := 10000, content := "233", contentStyle := .null },
   { id := "c2", timeOffset := 10500, content := "233", contentStyle := .null },
   { id := "c3", timeOffset := 11000, content := "233", contentStyle := .null },
   { id := "c4", timeOffset := 12000, content := "233", contentStyle := .null }]

/-- Example TMDB episode group: two custom seasons. -/
def exGroupDetails : TMDBEpisodeGroupDetails :=
  { id := "g1", name := "组", description := none, episode_count := 3
    group_count := 2, type := 6
    groups :=
      [{ id := "s2", name := "第二季", order := 2
         episodes := [{ id := 503, name := "e3", episode_number := 3
                        season_number := 1, air_date := none, overview := none
                        order := 2 }] },
       { id := "s1", name := "第一季", order := 1
         episodes := [{ id := 501, name := "e1", episode_number := 1
                        season_number := 1, air_date := none, overview := none
                        order := 0 },
                      { id := 502, name := "e2", episode_number := 2
                        season_number := 1, air_date := none, overview := none
                        order := 1 }] }] }

/-! ## Theorems -/

theorem numDigitsAux_le (fuel : Nat) : ∀ n k : Nat, n < fuel → 1 ≤ k →
    n < 10 ^ k → numDigitsAux fuel n ≤ k := by
  induction fuel with
  | zero => intro n k h; omega
  | succ fuel ih =>
    intro n k hn hk hpow
    unfold numDigitsAux
    by_cases h10 : n < 10
    · simp [h10]
      omega
    · rw [if_neg h10]
      have hk2 : 2 ≤ k := by
        by_contra hlt
        have : k = 1 := by omega
        subst this
        simp at hpow
        omega
      have hpowsplit : 10 ^ k = 10 ^ (k - 1) * 10 := by
        rw [← pow_succ]
        congr 1
        omega
      have hdiv : n / 10 < 10 ^ (k - 1) := by
        rw [Nat.div_lt_iff_lt_mul (by omega)]
        omega
      have hfuel : n / 10 < fuel := by
        have := Nat.div_lt_self (by omega : 0 < n) (by omega : 1 < 10)
        omega
      have := ih (n / 10) (k - 1) hfuel (by omega) hdiv
      omega

theorem padWidth_of_fits (k n : Nat) (hk : 1 ≤ k) (h : n < 10 ^ k) :
    padWidth k n = k := by
  have := numDigitsAux_le (n + 1) n k (by omega) hk h
  unfold padWidth numDigits
  omega

theorem genEpisodeId_fits (a o e : Nat) (ha : a < 10 ^ 6) (ho : o < 10 ^ 2)
    (he : e < 10 ^ 4) :
    genEpisodeId a o e = 25 * 10 ^ 12 + a * 10 ^ 6 + o * 10 ^ 4 + e := by
  unfold genEpisodeId
  rw [padWidth_of_fits 6 a (by omega) ha, padWidth_of_fits 2 o (by omega) ho,
    padWidth_of_fits 4 e (by omega) he]
  ring

theorem indexOf_sorted (l : List Nat) (hnd : l.Nodup)
    (hsort : l.Sorted (fun x y => x ≤ y)) (a : Nat) (ha : a ∈ l) :
    l.indexOf? a = some (l.countP (fun x => x < a)) := by
  induction l with
  | nil => simp at ha
  | cons b t ih =>
    rcases List.mem_cons.mp ha with rfl | hat
    · have hcount : t.countP (fun x => x < a) = 0 := by
        rw [List.countP_eq_zero]
        intro x hx
        have h1 : a ≤ x := (List.sorted_cons.mp hsort).1 x hx
        simp
        omega
      simp [List.indexOf?, List.findIdx?_cons, hcount]
    · have hba : b ≤ a := (List.sorted_cons.mp hsort).1 a hat
      have hbne : b ≠ a := by
        rintro rfl
        exact (List.nodup_cons.mp hnd).1 hat
      have hblt : b < a := lt_of_le_of_ne hba hbne
      have := ih (List.nodup_cons.mp hnd).2 (List.sorted_cons.mp hsort).2 hat
      simp only [List.indexOf?] at this ⊢
      simp [List.findIdx?_cons, hbne, this, hblt, List.countP_cons]

theorem rankIdx (db : Db) (aid sid : Nat)
    (hnodup : (db.sources.map (fun s => s.id)).Nodup)
    (hmem : ∃ r ∈ db.sources, r.id = sid ∧ r.animeId = aid) :
    (sourceIdsOfAnime db aid).indexOf? sid = some (sourceRank db aid sid - 1) := by
  classical
  set ids := (db.sources.filter (fun s => s.animeId = aid)).map (fun s => s.id) with hids
  have hsub : List.Sublist ids (db.sources.map (fun s => s.id)) :=
    (List.filter_sublist _).map _
  have hnd : ids.Nodup := hnodup.sublist hsub
  have hmem2 : sid ∈ ids := by
    obtain ⟨r, hr, hid, hanime⟩ := hmem
    exact List.mem_map.mpr ⟨r, List.mem_filter.mpr ⟨hr, by simp [hanime]⟩, hid⟩
  have hperm : List.Perm (sourceIdsOfAnime db aid) ids := List.perm_insertionSort _ _
  have hnd2 : (sourceIdsOfAnime db aid).Nodup := hperm.nodup_iff.mpr hnd
  have hmem3 : sid ∈ sourceIdsOfAnime db aid := hperm.mem_iff.mpr hmem2
  have hsort : (sourceIdsOfAnime db aid).Sorted (fun x y => x ≤ y) :=
    List.sorted_insertionSort _ _
  rw [indexOf_sorted _ hnd2 hsort _ hmem3, hperm.countP_eq]
  congr 1
  have hc : ids.countP (fun x => x < sid)
      = (db.sources.filter (fun s => s.animeId = aid)).countP (fun s => s.id < sid) := by
    rw [hids, List.countP_map]
    rfl
  rw [hc]
  simp [sourceRank]

/-- C1: for a fresh `(source_id, episode_index)` the assigned id is
`25·10^12 + anime_id·10^6 + rank·10^4 + episode_index` with `rank` the
1-based rank of the source among the work's sources by ascending id,
provided each field fits its slot; and re-creating the same triple on the
resulting state returns the same id without change. -/
theorem claim_C1 (db : Db) (aid sid idx : Nat) (title : String)
    (url : Option String) (pid : String) (now : Nat)
    (hkey : findEpisodeByKey db sid idx = none)
    (hnodup : (db.sources.map (fun s => s.id)).Nodup)
    (hmem : ∃ r ∈ db.sources, r.id = sid ∧ r.animeId = aid)
    (ha : aid < 10 ^ 6) (hrk : sourceRank db aid sid < 10 ^ 2)
    (hi : idx < 10 ^ 4) :
    ∃ db1, createEpisodeIfNotExists db aid sid idx title url pid now
        = .ok (db1, 25 * 10 ^ 12 + aid * 10 ^ 6 + sourceRank db aid sid * 10 ^ 4 + idx) ∧
      ∀ now2, createEpisodeIfNotExists db1 aid sid idx title url pid now2
        = .ok (db1, 25 * 10 ^ 12 + aid * 10 ^ 6 + sourceRank db aid sid * 10 ^ 4 + idx) := by
  have hidgen : genEpisodeId aid (sourceRank db aid sid) idx
      = 25 * 10 ^ 12 + aid * 10 ^ 6 + sourceRank db aid sid * 10 ^ 4 + idx :=
    genEpisodeId_fits _ _ _ ha hrk hi
  have hidx := rankIdx db aid sid hnodup hmem
  have hro : sourceRank db aid sid - 1 + 1 = sourceRank db aid sid := by
    unfold sourceRank
    omega
  refine ⟨{ db with episodes := db.episodes ++
      [{ id := 25 * 10 ^ 12 + aid * 10 ^ 6 + sourceRank db aid sid * 10 ^ 4 + idx
         sourceId := sid, episodeIndex := idx, providerEpisodeId := pid
         title := title, sourceUrl := url, fetchedAt := now
         commentCount := 0 }] }, ?_, ?_⟩
  · unfold createEpisodeIfNotExists
    rw [hkey, hidx]
    simp only [hro, hidgen]
  · intro now2
    unfold createEpisodeIfNotExists
    rw [show findEpisodeByKey
        { db with episodes := db.episodes ++
            [{ id := 25 * 10 ^ 12 + aid * 10 ^ 6 + sourceRank db aid sid * 10 ^ 4 + idx
               sourceId := sid, episodeIndex := idx, providerEpisodeId := pid
               title := title, sourceUrl := url, fetchedAt := now
               commentCount := 0 }] } sid idx
        = some { id := 25 * 10 ^ 12 + aid * 10 ^ 6 + sourceRank db aid sid * 10 ^ 4 + idx
                 sourceId := sid, episodeIndex := idx, providerEpisodeId := pid
                 title := title, sourceUrl := url, fetchedAt := now
                 commentCount := 0 } from by
      unfold findEpisodeByKey at hkey ⊢
      simp only [List.find?_append, hkey]
      simp]

/-- C1 witness: anime 42, the source ranked second, episode 7 gets id
25000042020007. -/
theorem claim_C1_witness :
    findEpisodeByKey rankDb 5 7 = none ∧ sourceRank rankDb 42 5 = 2 ∧
    ∃ db1, createEpisodeIfNotExists rankDb 42 5 7 "第七集" none "v7" 0
        = .ok (db1, 25000042020007) := by
  refine ⟨by decide, by decide, ?_⟩
  obtain ⟨db1, h1, _⟩ := claim_C1 rankDb 42 5 7 "第七集" none "v7" 0 (by decide)
    (by decide) (by decide) (by decide) (by decide) (by decide)
  refine ⟨db1, ?_⟩
  rw [h1]
  norm_num [show sourceRank rankDb 42 5 = 2 from by decide]

/-- C1 counterexample: with anime_id = 10^6 (slot overflow) the assigned
id is the decimal concatenation 251000000010001, not the arithmetic
formula of the claim. -/
theorem claim_C1_counterexample :
    ((createEpisodeIfNotExists overflowDb 1000000 1 1 "第一集" none "v1" 0).toOption.map
        Prod.snd) = some 251000000010001 ∧
    (251000000010001 : Nat) ≠
      25 * 10 ^ 12 + 1000000 * 10 ^ 6 + sourceRank overflowDb 1000000 1 * 10 ^ 4 + 1 := by
  exact ⟨by decide, by decide⟩

/-- C7 counterexample: a field overflowing its slot does not abort the
creation: the call still returns an id. -/
theorem claim_C7_counterexample :
    (10 : Nat) ^ 6 ≤ 1000000 ∧
    ((createEpisodeIfNotExists overflowDb 1000000 1 1 "第一集" none "v1" 0).toOption.map
        Prod.snd) = some 251000000010001 := by
  exact ⟨by norm_num, by decide⟩

/-- C7 amended: no slot-fit check exists; the only fatal error of
create_episode_if_not_exists is an unlinked source, and any field values
otherwise produce an id. -/
theorem claim_C7 (db : Db) (aid sid idx : Nat) (title : String)
    (url : Option String) (pid : String) (now : Nat) :
    (∃ e, createEpisodeIfNotExists db aid sid idx title url pid now = .error e) ↔
      (findEpisodeByKey db sid idx = none ∧
        (sourceIdsOfAnime db aid).indexOf? sid = none) := by
  unfold createEpisodeIfNotExists
  rcases hk : findEpisodeByKey db sid idx with _ | e
  · rcases hi : (sourceIdsOfAnime db aid).indexOf? sid with _ | i <;> simp
  · simp


theorem sid_count_le_one (db : Db) (sid : Nat)
    (hnodup : (db.sources.map (fun s => s.id)).Nodup) :
    db.sources.countP (fun s => s.id = sid) ≤ 1 := by
  have h1 := List.nodup_iff_count_le_one.mp hnodup sid
  rw [List.count, List.countP_map] at h1
  calc db.sources.countP (fun s => s.id = sid)
      = db.sources.countP ((fun x => x == sid) ∘ (fun s => s.id)) := by
        apply List.countP_congr
        intro s _
        simp [Function.comp]
    _ ≤ 1 := h1

theorem toggle_sources_eq (db : Db) (sid : Nat) (src : SourceRow)
    (hf : findSourceById db sid = some src) :
    (toggleSourceFavoriteStatus db sid).1.sources = db.sources.map (fun s =>
      if s.id = sid then { s with isFavorited := !s.isFavorited }
      else if s.animeId = src.animeId then { s with isFavorited := false }
      else s) := by
  unfold toggleSourceFavoriteStatus
  rw [hf]
  simp only [List.map_map]
  apply List.map_congr_left
  intro s _
  by_cases hid : s.id = sid
  · simp [Function.comp, hid]
  · by_cases han : s.animeId = src.animeId
    · simp [Function.comp, hid, han]
    · simp [Function.comp, hid, han]

/-- C4: for every work at most one source is favorited, and the
favorite-toggle preserves the invariant because siblings are cleared
before the target's flag is flipped. -/
theorem claim_C4 (db : Db) (sid : Nat)
    (hnodup : (db.sources.map (fun s => s.id)).Nodup)
    (hinv : ∀ a, atMostOneFavorited db a) :
    ∀ a, atMostOneFavorited (toggleSourceFavoriteStatus db sid).1 a := by
  intro a
  rcases hf : findSourceById db sid with _ | src
  · unfold toggleSourceFavoriteStatus
    rw [hf]
    exact hinv a
  · unfold atMostOneFavorited
    rw [toggle_sources_eq db sid src hf, List.countP_map]
    have hsrcmem : src ∈ db.sources := List.mem_of_find?_eq_some hf
    have hsrcid : src.id = sid := by
      have := List.find?_some hf
      simpa using this
    by_cases ha : a = src.animeId
    · subst ha
      refine le_trans (List.countP_mono_left ?_) (sid_count_le_one db sid hnodup)
      intro s _ hp
      simp only [Function.comp] at hp
      by_cases hid : s.id = sid
      · simpa using hid
      · exfalso
        by_cases han : s.animeId = src.animeId <;> simp [hid, han] at hp
    · have hle := hinv a
      unfold atMostOneFavorited at hle
      refine le_trans (le_of_eq (List.countP_congr ?_)) hle
      intro s hs
      simp only [Function.comp]
      by_cases hid : s.id = sid
      · have hseq : s = src := List.inj_on_of_nodup_map hnodup hs hsrcmem
          (by rw [hid, hsrcid])
        subst hseq
        have hna : ¬ s.animeId = a := fun h => ha h.symm
        simp [hid, hna]
      · by_cases han : s.animeId = src.animeId
        · have hna : ¬ s.animeId = a := by
            rw [han]
            exact fun h => ha h.symm
          simp [hid, han, hna]
          exact fun h => absurd h.symm ha
        · simp [hid, han]

/-- C4 witness: toggling source 5 of work 9 (whose sibling 4 is
favorited) keeps at most one favorited source. -/
theorem claim_C4_witness :
    (favDb.sources.map (fun s => s.id)).Nodup ∧
    atMostOneFavorited (toggleSourceFavoriteStatus favDb 5).1 9 := by
  refine ⟨by decide, ?_⟩
  refine claim_C4 favDb 5 (by decide) ?_ 9
  intro a
  unfold atMostOneFavorited
  by_cases h : a = 9
  · subst h
    decide
  · have h1 : ¬ ((9 : Nat) = a) := fun hh => h hh.symm
    simp [favDb, emptyDb, List.countP_cons, h1]

/-- C6 counterexample: the parser does not yield title "Fate/Zero" on
"Fate/Zero 第二季 S2E3" — the season marker stays inside the title. -/
theorem claim_C6_counterexample :
    parseSearchKeyword "Fate/Zero 第二季 S2E3" ≠
      { title := "Fate/Zero", season := some 2, episode := some 3 } := by
  decide

/-- C6 amended: parsing "Fate/Zero 第二季 S2E3" yields title
"Fate/Zero 第二季" (everything before the SxxEyy marker), season 2 and
episode 3. -/
theorem claim_C6 :
    parseSearchKeyword "Fate/Zero 第二季 S2E3" =
      { title := "Fate/Zero 第二季", season := some 2, episode := some 3 } := by
  decide

/-- C9: marking interrupted tasks turns every RUNNING or PAUSED row into a
FAILED row with the interrupted-by-restart description and
`finished_at = now`, and leaves any other row unchanged. -/
theorem claim_C9 (rows : List TaskRow) (now : Nat) (i : Nat)
    (h : i < rows.length) :
    (markInterruptedTasksAsFailed rows now).1.length = rows.length ∧
    (let r := rows.getD i defaultTaskRow
     let r1 := (markInterruptedTasksAsFailed rows now).1.getD i defaultTaskRow
     ((r.status = STATUS_RUNNING ∨ r.status = STATUS_PAUSED) →
        r1 = { r with status := STATUS_FAILED
                      description := INTERRUPTED_BY_RESTART
                      finishedAt := some now }) ∧
     (¬(r.status = STATUS_RUNNING ∨ r.status = STATUS_PAUSED) → r1 = r)) := by
  have hgd : rows.getD i defaultTaskRow = rows[i] := by
    simp [List.getD_eq_getElem?_getD, List.getElem?_eq_getElem h]
  have hgd1 : (markInterruptedTasksAsFailed rows now).1.getD i defaultTaskRow
      = (fun r => if r.status = STATUS_RUNNING || r.status = STATUS_PAUSED then
          { r with status := STATUS_FAILED, description := INTERRUPTED_BY_RESTART
                   finishedAt := some now } else r) rows[i] := by
    simp [markInterruptedTasksAsFailed, List.getD_eq_getElem?_getD,
      List.getElem?_map, List.getElem?_eq_getElem h]
  refine ⟨by simp [markInterruptedTasksAsFailed], ?_, ?_⟩ <;>
    simp only [hgd, hgd1] <;> intro hs
  · rw [if_pos (by simpa using hs)]
  · rw [if_neg (by simpa using hs)]

/-- C9 witness: a running task row is failed with the restart message. -/
theorem claim_C9_witness :
    0 < interruptRows.length ∧
    (markInterruptedTasksAsFailed interruptRows 99).1.getD 0 defaultTaskRow
      = { id := "t1", title := "导入任务", status := STATUS_FAILED, progress := 50
          description := INTERRUPTED_BY_RESTART, createdAt := 0
          finishedAt := some 99 } := by
  refine ⟨by decide, ?_⟩
  have h := (claim_C9 interruptRows 99 0 (by decide)).2.1 (Or.inl rfl)
  rw [h]
  decide


/-- C8: recomputing a TMDB episode-group mapping deletes the group's rows
and inserts the recomputed rows in one transaction (a failure keeps the
old rows); every inserted row has `custom_season_number = group.order`,
`custom_episode_number` the 1-based index in its group, and
`absolute_episode_number = episode.order + 1`. -/
theorem claim_C8 (table : List TmdbMappingRow) (tvId : Nat) (groupId : String)
    (gd : TMDBEpisodeGroupDetails) :
    saveTmdbEpisodeGroupMappings table tvId groupId gd true
      = (table, .error "db error") ∧
    saveTmdbEpisodeGroupMappings table tvId groupId gd false
      = ((table.filter (fun r => r.tmdbEpisodeGroupId ≠ groupId))
          ++ tmdbMappingRows tvId groupId gd, .ok ()) ∧
    ∀ r ∈ tmdbMappingRows tvId groupId gd,
      ∃ g, g ∈ gd.groups ∧ ∃ i : Fin g.episodes.length,
        r = { tmdbTvId := tvId, tmdbEpisodeGroupId := groupId
              tmdbEpisodeId := (g.episodes.get i).id
              tmdbSeasonNumber := (g.episodes.get i).season_number
              tmdbEpisodeNumber := (g.episodes.get i).episode_number
              customSeasonNumber := g.order
              customEpisodeNumber := i.1 + 1
              absoluteEpisodeNumber := (g.episodes.get i).order + 1 } := by
  refine ⟨rfl, rfl, ?_⟩
  intro r hr
  unfold tmdbMappingRows at hr
  rw [List.mem_flatten] at hr
  obtain ⟨l, hl, hrl⟩ := hr
  rw [List.mem_map] at hl
  obtain ⟨g, hg, rfl⟩ := hl
  have hgmem : g ∈ gd.groups := (List.mem_insertionSort _).mp hg
  by_cases hemp : g.episodes.isEmpty
  · rw [if_pos hemp] at hrl
    simp at hrl
  · rw [if_neg hemp] at hrl
    rw [List.mem_map] at hrl
    obtain ⟨⟨i, ep⟩, hienum, rfl⟩ := hrl
    have hget : g.episodes[i]? = some ep := List.mk_mem_enum_iff_getElem?.mp hienum
    have hilen : i < g.episodes.length := by
      by_contra hge
      rw [List.getElem?_eq_none (by omega)] at hget
      exact Option.noConfusion hget
    refine ⟨g, hgmem, ⟨i, hilen⟩, ?_⟩
    have hval : g.episodes.get ⟨i, hilen⟩ = ep := by
      rw [List.getElem?_eq_getElem hilen] at hget
      have := Option.some.inj hget
      rw [← this]
      simp [List.get_eq_getElem]
    rw [hval]

/-- C8 witness: in the two-group example the row of episode 501 sits in
group "s1" (order 1) at index 0, so its custom season is 1, its custom
episode is 1 and its absolute episode is its order 0 plus 1. -/
theorem claim_C8_witness :
    (∃ g, g ∈ exGroupDetails.groups ∧ ∃ i : Fin g.episodes.length,
      ({ tmdbTvId := 1396, tmdbEpisodeGroupId := "g1", tmdbEpisodeId := 501
         tmdbSeasonNumber := 1, tmdbEpisodeNumber := 1, customSeasonNumber := 1
         customEpisodeNumber := 1, absoluteEpisodeNumber := 1 } : TmdbMappingRow)
        = { tmdbTvId := 1396, tmdbEpisodeGroupId := "g1"
            tmdbEpisodeId := (g.episodes.get i).id
            tmdbSeasonNumber := (g.episodes.get i).season_number
            tmdbEpisodeNumber := (g.episodes.get i).episode_number
            customSeasonNumber := g.order
            customEpisodeNumber := i.1 + 1
            absoluteEpisodeNumber := (g.episodes.get i).order + 1 }) ∧
    saveTmdbEpisodeGroupMappings [] 1396 "g1" exGroupDetails false
      = (tmdbMappingRows 1396 "g1" exGroupDetails, .ok ()) := by
  constructor
  · exact (claim_C8 [] 1396 "g1" exGroupDetails).2.2 _ (by decide)
  · simpa using (claim_C8 [] 1396 "g1" exGroupDetails).2.1

/-- C10 (code bug): crud.update_episode_info's docstring and code text
promise that a stale episode id is retargeted to the row at
`(source_id, original_episode_index)`, that false comes back only when
that fallback also finds nothing, and that a duplicate index raises the
409 conflict — but models.EpisodeInfoUpdate defines none of the
attributes those steps dereference, so the staged function returns false
on every input, edits nothing and never raises.  In `editDb` the id 77 is
stale while the fallback row `(source 3, index 1)` exists, yet the edit
still returns false and the endpoint answers 404. -/
theorem claim_C10 :
    (∀ (db : Db) (eid : Nat) (u : EpisodeInfoUpdate),
      updateEpisodeInfo db eid u = .ok (db, false)) ∧
    editDb.episodes.find? (fun e => e.id = 77) = none ∧
    (findEpisodeByKey editDb 3 1).isSome = true ∧
    updateEpisodeInfo editDb 77
      { title := "新标题", episodeIndex := 1, sourceUrl := none } =
      .ok (editDb, false) := by
  refine ⟨?_, by decide, by decide, rfl⟩
  intro db eid u
  unfold updateEpisodeInfo
  rcases hf : db.episodes.find? (fun e => e.id = eid) with _ | e <;> rw [hf]


theorem dedupStep_ids_nodup (acc : List TencentComment) (c : TencentComment)
    (h : (acc.map (fun x => x.id)).Nodup) :
    ((dedupStep acc c).map (fun x => x.id)).Nodup := by
  unfold dedupStep
  by_cases hany : acc.any (fun x => x.id = c.id)
  · rw [if_pos hany]
    have : (acc.map (fun x => if x.id = c.id then c else x)).map (fun x => x.id)
        = acc.map (fun x => x.id) := by
      rw [List.map_map]
      apply List.map_congr_left
      intro x _
      by_cases hx : x.id = c.id <;> simp [Function.comp, hx]
    rw [this]
    exact h
  · rw [if_neg hany]
    rw [List.map_append]
    simp only [List.map_cons, List.map_nil]
    rw [List.nodup_append]
    refine ⟨h, List.nodup_singleton _, ?_⟩
    intro x hx
    simp only [List.mem_singleton]
    obtain ⟨y, hy, rfl⟩ := List.mem_map.mp hx
    intro hbad
    rw [List.any_eq_true] at hany
    exact hany ⟨y, hy, by simp [hbad]⟩

theorem dedup_foldl_ids_nodup (l : List TencentComment) :
    ∀ acc : List TencentComment, (acc.map (fun x => x.id)).Nodup →
      (((l.foldl dedupStep acc)).map (fun x => x.id)).Nodup := by
  induction l with
  | nil => intro acc h; simpa using h
  | cons c t ih =>
    intro acc h
    exact ih _ (dedupStep_ids_nodup acc c h)

theorem dedup_ids_nodup (l : List TencentComment) :
    ((dedupById l).map (fun x => x.id)).Nodup := by
  unfold dedupById
  exact dedup_foldl_ids_nodup l [] (by simp)

theorem groupByContent_append (l : List TencentComment) (c : TencentComment) :
    groupByContent (l ++ [c]) = groupStep (groupByContent l) c := by
  unfold groupByContent
  rw [List.foldl_append]
  rfl

theorem groupByContent_spec (l : List TencentComment) :
    (∀ p ∈ groupByContent l, p.2 = l.filter (fun c => c.content = p.1)) ∧
    ((groupByContent l).map Prod.fst).Nodup ∧
    (∀ c ∈ l, c.content ∈ (groupByContent l).map Prod.fst) := by
  induction l using List.reverseRecOn with
  | nil => exact ⟨by simp [groupByContent], by simp [groupByContent], by simp⟩
  | append_singleton l c ih =>
    obtain ⟨ih1, ih2, ih3⟩ := ih
    rw [groupByContent_append]
    unfold groupStep
    by_cases hany : (groupByContent l).any (fun p => p.1 = c.content)
    · rw [if_pos hany]
      refine ⟨?_, ?_, ?_⟩
      · intro p hp
        obtain ⟨q, hq, rfl⟩ := List.mem_map.mp hp
        by_cases hqc : q.1 = c.content
        · rw [if_pos hqc]
          simp only
          rw [ih1 q hq, List.filter_append]
          simp [hqc]
        · rw [if_neg hqc]
          rw [ih1 q hq, List.filter_append]
          have : ¬ (c.content = q.1) := fun h => hqc h.symm
          simp [this]
      · have : ((groupByContent l).map (fun p =>
            if p.1 = c.content then (p.1, p.2 ++ [c]) else p)).map Prod.fst
            = (groupByContent l).map Prod.fst := by
          rw [List.map_map]
          apply List.map_congr_left
          intro p _
          by_cases hp : p.1 = c.content <;> simp [Function.comp, hp]
        rw [this]
        exact ih2
      · intro x hx
        have hkeys : ((groupByContent l).map (fun p =>
            if p.1 = c.content then (p.1, p.2 ++ [c]) else p)).map Prod.fst
            = (groupByContent l).map Prod.fst := by
          rw [List.map_map]
          apply List.map_congr_left
          intro p _
          by_cases hp : p.1 = c.content <;> simp [Function.comp, hp]
        rw [hkeys]
        rcases List.mem_append.mp hx with hxl | hxc
        · exact ih3 x hxl
        · rw [List.mem_singleton] at hxc
          subst hxc
          rw [List.any_eq_true] at hany
          obtain ⟨p, hp, hpc⟩ := hany
          rw [List.mem_map]
          exact ⟨p, hp, by simpa using hpc⟩
    · rw [if_neg hany]
      have hnokey : ∀ p ∈ groupByContent l, p.1 ≠ c.content := by
        intro p hp hbad
        rw [List.any_eq_true] at hany
        exact hany ⟨p, hp, by simp [hbad]⟩
      have hnoelem : l.filter (fun x => x.content = c.content) = [] := by
        rw [List.filter_eq_nil_iff]
        intro x hx hbad
        have := ih3 x hx
        obtain ⟨p, hp, hpeq⟩ := List.mem_map.mp this
        have : x.content = c.content := by simpa using hbad
        exact hnokey p hp (by rw [hpeq, this])
      refine ⟨?_, ?_, ?_⟩
      · intro p hp
        rcases List.mem_append.mp hp with hpl | hpc
        · rw [ih1 p hpl, List.filter_append]
          have : ¬ (c.content = p.1) := fun h => hnokey p hpl h.symm
          simp [this]
        · rw [List.mem_singleton] at hpc
          subst hpc
          simp only [List.filter_append]
          rw [hnoelem]
          simp
      · rw [List.map_append]
        simp only [List.map_cons, List.map_nil]
        rw [List.nodup_append]
        refine ⟨ih2, List.nodup_singleton _, ?_⟩
        intro k hk
        simp only [List.mem_singleton]
        obtain ⟨p, hp, rfl⟩ := List.mem_map.mp hk
        exact fun hbad => hnokey p hp hbad
      · intro x hx
        rw [List.map_append]
        rcases List.mem_append.mp hx with hxl | hxc
        · exact List.mem_append.mpr (Or.inl (ih3 x hxl))
        · rw [List.mem_singleton] at hxc
          subst hxc
          simp

theorem earliestIn_step (c0 c : TencentComment) :
    earliestIn c0 (c :: []) = if c.timeOffset < c0.timeOffset then c else c0 := rfl

theorem earliestIn_min_all (rest : List TencentComment) :
    ∀ c0, (earliestIn c0 rest).timeOffset ≤ c0.timeOffset ∧
      ∀ c ∈ rest, (earliestIn c0 rest).timeOffset ≤ c.timeOffset := by
  induction rest with
  | nil =>
    intro c0
    exact ⟨le_refl _, by simp⟩
  | cons c t ih =>
    intro c0
    have hstep : earliestIn c0 (c :: t)
        = earliestIn (if c.timeOffset < c0.timeOffset then c else c0) t := by
      unfold earliestIn
      simp only [List.foldl_cons]
    obtain ⟨ih1, ih2⟩ := ih (if c.timeOffset < c0.timeOffset then c else c0)
    have hle0 : (if c.timeOffset < c0.timeOffset then c else c0).timeOffset
        ≤ c0.timeOffset := by
      by_cases h : c.timeOffset < c0.timeOffset <;> simp [h]
      omega
    have hlec : (if c.timeOffset < c0.timeOffset then c else c0).timeOffset
        ≤ c.timeOffset := by
      by_cases h : c.timeOffset < c0.timeOffset <;> simp [h]
      omega
    rw [hstep]
    refine ⟨le_trans ih1 hle0, ?_⟩
    intro x hx
    rcases List.mem_cons.mp hx with h1 | h1
    · rw [h1]
      exact le_trans ih1 hlec
    · exact ih2 x h1

theorem earliestIn_mem (c0 : TencentComment) (rest : List TencentComment) :
    earliestIn c0 rest ∈ c0 :: rest := by
  unfold earliestIn
  induction rest generalizing c0 with
  | nil => simp
  | cons c t ih =>
    simp only [List.foldl_cons]
    by_cases h : c.timeOffset < c0.timeOffset
    · rw [if_pos h]
      have := ih c
      rcases List.mem_cons.mp this with h1 | h1
      · exact List.mem_cons.mpr (Or.inr (List.mem_cons.mpr (Or.inl h1)))
      · exact List.mem_cons.mpr (Or.inr (List.mem_cons.mpr (Or.inr h1)))
    · rw [if_neg h]
      have := ih c0
      rcases List.mem_cons.mp this with h1 | h1
      · exact List.mem_cons.mpr (Or.inl h1)
      · exact List.mem_cons.mpr (Or.inr (List.mem_cons.mpr (Or.inr h1)))

theorem processGroup_id_mem (g : List TencentComment) (x : TencentComment)
    (hx : x ∈ processGroup g) : x.id ∈ g.map (fun c => c.id) := by
  cases g with
  | nil => simp [processGroup] at hx
  | cons c0 rest =>
    unfold processGroup at hx
    dsimp only at hx
    by_cases hr : rest.isEmpty
    · rw [if_pos hr] at hx
      rw [List.mem_singleton] at hx
      subst hx
      simp
    · rw [if_neg hr] at hx
      rw [List.mem_singleton] at hx
      subst hx
      simp only
      exact List.mem_map.mpr ⟨earliestIn c0 rest, earliestIn_mem c0 rest, rfl⟩

theorem processGroup_big (g : List TencentComment) (h2 : 2 ≤ g.length) :
    ∃ c0 rest, g = c0 :: rest ∧ rest ≠ [] ∧
      processGroup g = [{ earliestIn c0 rest with
        content := (earliestIn c0 rest).content ++ " X" ++ toString g.length }] := by
  cases g with
  | nil => simp at h2
  | cons c0 rest =>
    cases rest with
    | nil => simp at h2
    | cons c1 t =>
      refine ⟨c0, c1 :: t, rfl, by simp, ?_⟩
      unfold processGroup
      dsimp only
      rw [if_neg (by simp)]

theorem mem_filter_content (u : List TencentComment) (k : String)
    (c : TencentComment) (hc : c ∈ u.filter (fun x => x.content = k)) :
    c ∈ u ∧ c.content = k := by
  have := List.mem_filter.mp hc
  exact ⟨this.1, by simpa using this.2⟩

theorem other_group_disjoint (u : List TencentComment) (k k2 : String)
    (hids : (u.map (fun c => c.id)).Nodup) (hkk : k2 ≠ k)
    (x : TencentComment) (hx : x ∈ processGroup (u.filter (fun c => c.content = k2))) :
    ¬ (x.id ∈ (u.filter (fun c => c.content = k)).map (fun c => c.id)) := by
  intro hbad
  obtain ⟨c, hc, hcid⟩ := List.mem_map.mp hbad
  obtain ⟨hcu, hck⟩ := mem_filter_content u k c hc
  have hxid := processGroup_id_mem _ _ hx
  obtain ⟨d, hd, hdid⟩ := List.mem_map.mp hxid
  obtain ⟨hdu, hdk2⟩ := mem_filter_content u k2 d hd
  have : d = c := List.inj_on_of_nodup_map hids hdu hcu (by rw [hdid, hcid])
  subst this
  exact hkk (hdk2 ▸ hck ▸ rfl)

theorem groups_filter_single (u : List TencentComment) (k : String)
    (hids : (u.map (fun c => c.id)).Nodup)
    (hg2 : 2 ≤ (u.filter (fun c => c.content = k)).length) :
    ∀ gs : List (String × List TencentComment),
    (∀ p ∈ gs, p.2 = u.filter (fun c => c.content = p.1)) →
    (gs.map Prod.fst).Nodup →
    k ∈ gs.map Prod.fst →
    ∃ c0 rest, u.filter (fun c => c.content = k) = c0 :: rest ∧
      ((gs.map (fun p => processGroup p.2)).flatten).filter
          (fun x => decide (x.id ∈ (u.filter (fun c => c.content = k)).map
            (fun c => c.id)))
        = [{ earliestIn c0 rest with
             content := (earliestIn c0 rest).content ++ " X"
               ++ toString (u.filter (fun c => c.content = k)).length }] := by
  intro gs
  induction gs with
  | nil => intro _ _ hk; simp at hk
  | cons p gs ih =>
    intro hchar hkeys hkmem
    have hchar' : ∀ q ∈ gs, q.2 = u.filter (fun c => c.content = q.1) :=
      fun q hq => hchar q (List.mem_cons.mpr (Or.inr hq))
    have hkeys2 : p.1 ∉ gs.map Prod.fst ∧ (gs.map Prod.fst).Nodup := by
      rw [List.map_cons, List.nodup_cons] at hkeys
      exact hkeys
    simp only [List.map_cons, List.flatten_cons, List.filter_append]
    by_cases hpk : p.1 = k
    · -- the head group is the target group
      have hpg : p.2 = u.filter (fun c => c.content = k) := by
        rw [hchar p (List.mem_cons.mpr (Or.inl rfl)), hpk]
      obtain ⟨c0, rest, hsplit, hrne, hproc⟩ :=
        processGroup_big (u.filter (fun c => c.content = k)) hg2
      refine ⟨c0, rest, hsplit, ?_⟩
      have htail : ((gs.map (fun q => processGroup q.2)).flatten).filter
          (fun x => decide (x.id ∈ (u.filter (fun c => c.content = k)).map
            (fun c => c.id))) = [] := by
        rw [List.filter_eq_nil_iff]
        intro x hx
        rw [List.mem_flatten] at hx
        obtain ⟨lx, hlx, hxlx⟩ := hx
        obtain ⟨q, hq, rfl⟩ := List.mem_map.mp hlx
        have hq2 : q.1 ≠ k := by
          intro hbad
          have : k ∈ gs.map Prod.fst := List.mem_map.mpr ⟨q, hq, hbad⟩
          rw [← hpk] at this
          exact hkeys2.1 this
        rw [hchar' q hq] at hxlx
        simpa using other_group_disjoint u k q.1 hids hq2 x hxlx
      rw [htail, List.append_nil, hpg, hproc]
      have hemem : earliestIn c0 rest ∈ u.filter (fun c => c.content = k) := by
        rw [hsplit]
        exact earliestIn_mem c0 rest
      have hidm : (earliestIn c0 rest).id
          ∈ (u.filter (fun c => c.content = k)).map (fun c => c.id) :=
        List.mem_map.mpr ⟨_, hemem, rfl⟩
      rw [List.filter_cons]
      simp only [hidm]
      simp
    · -- the head group is a different group: dropped entirely
      have hhead : (processGroup p.2).filter
          (fun x => decide (x.id ∈ (u.filter (fun c => c.content = k)).map
            (fun c => c.id))) = [] := by
        rw [List.filter_eq_nil_iff]
        intro x hx
        rw [hchar p (List.mem_cons.mpr (Or.inl rfl))] at hx
        simpa using other_group_disjoint u k p.1 hids hpk x hx
      have hkmem2 : k ∈ gs.map Prod.fst := by
        rw [List.map_cons, List.mem_cons] at hkmem
        rcases hkmem with h1 | h1
        · exact absurd h1.symm hpk
        · exact h1
      obtain ⟨c0, rest, hsplit, heq⟩ := ih hchar' hkeys2.2 hkmem2
      exact ⟨c0, rest, hsplit, by rw [hhead, heq, List.nil_append]⟩

/-- C5: GetComments deduplicates by upstream cid, groups by content, and
replaces every group of size n ≥ 2 by its earliest-timestamp member with
the content suffixed " X{n}", dropping the others; the four-"233" example
collapses to one comment "233 X4" at t = 10.0 with
p = "10.00,1,16777215,[tencent]". -/
theorem claim_C5 :
    (∀ (l : List TencentComment) (k : String),
      2 ≤ ((dedupById l).filter (fun c => c.content = k)).length →
      ∃ e, e ∈ (dedupById l).filter (fun c => c.content = k) ∧
        (∀ c ∈ (dedupById l).filter (fun c => c.content = k),
          e.timeOffset ≤ c.timeOffset) ∧ e.content = k ∧
        (tencentGetComments "tencent" l).filter
            (fun d => decide (d.cid ∈ ((dedupById l).filter
              (fun c => c.content = k)).map (fun c => c.id)))
          = [{ cid := e.id
               p := fmtCenti (roundCenti e.timeOffset) ++ ","
                 ++ toString (tencentMode e.contentStyle) ++ ","
                 ++ toString (tencentColor e.contentStyle) ++ ",[tencent]"
               m := k ++ " X" ++ toString ((dedupById l).filter
                 (fun c => c.content = k)).length
               t := roundCenti e.timeOffset }]) ∧
    tencentGetComments "tencent" dupComments
      = [{ cid := "c1", p := "10.00,1,16777215,[tencent]", m := "233 X4"
           t := 1000 }] := by
  constructor
  · intro l k h2
    have hlne : ¬ (l.isEmpty = true) := by
      intro h
      rw [List.isEmpty_iff] at h
      subst h
      simp [dedupById] at h2
    obtain ⟨hchar, hkeys, hcompl⟩ := groupByContent_spec (dedupById l)
    have hkmem : k ∈ (groupByContent (dedupById l)).map Prod.fst := by
      rcases hfil : (dedupById l).filter (fun c => c.content = k) with _ | ⟨c, rest0⟩
      · rw [hfil] at h2
        simp at h2
      · have hcmem : c ∈ (dedupById l).filter (fun c => c.content = k) := by
          rw [hfil]
          exact List.mem_cons_self _ _
        obtain ⟨hcu, hck⟩ := mem_filter_content _ k c hcmem
        exact hck ▸ hcompl c hcu
    obtain ⟨c0, rest, hsplit, heq⟩ := groups_filter_single (dedupById l) k
      (dedup_ids_nodup l) h2 (groupByContent (dedupById l)) hchar hkeys hkmem
    have hemem : earliestIn c0 rest ∈ (dedupById l).filter (fun c => c.content = k) := by
      rw [hsplit]
      exact earliestIn_mem c0 rest
    refine ⟨earliestIn c0 rest, hemem, ?_, (mem_filter_content _ k _ hemem).2, ?_⟩
    · intro c hc
      rw [hsplit] at hc
      have hmin := earliestIn_min_all rest c0
      rcases List.mem_cons.mp hc with h1 | h1
      · rw [h1]
        exact hmin.1
      · exact hmin.2 c h1
    · unfold tencentGetComments
      rw [if_neg hlne]
      dsimp only
      rw [List.filter_map]
      have hfc : ((groupByContent (dedupById l)).map
            (fun p => processGroup p.2)).flatten.filter
          ((fun d => decide (d.cid ∈ ((dedupById l).filter
              (fun c => c.content = k)).map (fun c => c.id)))
            ∘ formatTencentComment "tencent")
          = ((groupByContent (dedupById l)).map
            (fun p => processGroup p.2)).flatten.filter
          (fun x => decide (x.id ∈ ((dedupById l).filter
              (fun c => c.content = k)).map (fun c => c.id))) := by
        apply List.filter_congr
        intro x _
        rfl
      rw [hfc, heq]
      have hck : (earliestIn c0 rest).content = k :=
        (mem_filter_content _ k _ hemem).2
      simp only [formatTencentComment, hck, List.map_cons, List.map_nil]
      rw [String.append_assoc _ ",[" "tencent", String.append_assoc _ (",[" ++ "tencent") "]"]
      rfl
  · decide

/-- C5 witness: the four duplicated "233" comments collapse to the single
earliest one, "233 X4" at 10.0 s. -/
theorem claim_C5_witness :
    2 ≤ ((dedupById dupComments).filter (fun c => c.content = "233")).length ∧
    (tencentGetComments "tencent" dupComments).filter
        (fun d => decide (d.cid ∈ ((dedupById dupComments).filter
          (fun c => c.content = "233")).map (fun c => c.id)))
      = [{ cid := "c1", p := "10.00,1,16777215,[tencent]", m := "233 X4"
           t := 1000 }] := by
  refine ⟨by decide, ?_⟩
  obtain ⟨e, hmem, hmin, hck, heq⟩ := claim_C5.1 dupComments "233" (by decide)
  have hl : (dedupById dupComments).filter (fun c => c.content = "233")
      = dupComments := by decide
  rw [hl] at hmem hmin
  have h1 : e.timeOffset ≤ 10000 :=
    hmin ⟨"c1", 10000, "233", .null⟩ (by decide)
  have he : e = (⟨"c1", 10000, "233", .null⟩ : TencentComment) := by
    rcases (show e = (⟨"c1", 10000, "233", .null⟩ : TencentComment) ∨
        e = (⟨"c2", 10500, "233", .null⟩ : TencentComment) ∨
        e = (⟨"c3", 11000, "233", .null⟩ : TencentComment) ∨
        e = (⟨"c4", 12000, "233", .null⟩ : TencentComment) from by
        simpa [dupComments] using hmem) with rfl | rfl | rfl | rfl
    · rfl
    · exact absurd h1 (by decide)
    · exact absurd h1 (by decide)
    · exact absurd h1 (by decide)
  rw [he] at heq
  exact heq.trans (by decide)


theorem collectComments_ok_all (f : String → Except String (List CommentDict)) :
    ∀ (l : List ProviderEpisodeInfo) (data : List (ProviderEpisodeInfo × List CommentDict)),
      collectComments f l = .ok data →
      ∀ ep ∈ l, ∃ cs, f ep.episodeId = .ok cs := by
  intro l
  induction l with
  | nil => intro data _ ep hep; simp at hep
  | cons e t ih =>
    intro data hok ep hep
    unfold collectComments at hok
    rcases hf : f e.episodeId with msg | cs
    · rw [hf] at hok
      exact Except.noConfusion hok
    · rw [hf] at hok
      rcases hc : collectComments f t with msg | tail
      · rw [hc] at hok
        exact Except.noConfusion hok
      · rcases List.mem_cons.mp hep with rfl | hmem
        · exact ⟨cs, hf⟩
        · exact ih tail hc ep hmem

/-- C3: if GetEpisodes raises, or GetComments raises for any episode that
the task processes (aborting during a fetch surfaces as such an
exception), then no database write has happened — the returned state is
the input state — and the task ends FAILED; database writes begin only
after every fetch has succeeded. -/
theorem claim_C3 (db : Db) (provider mediaId animeTitle mediaType : String)
    (season : Nat) (cei : Option Nat)
    (img dou tm im tv : Option String)
    (commentsResult : String → Except String (List CommentDict)) (now : Nat) :
    (∀ e, genericImportTask db provider mediaId animeTitle mediaType season cei
        img dou tm im tv (.error e) commentsResult now = (db, .failed e)) ∧
    (∀ (eps : List ProviderEpisodeInfo) (ep : ProviderEpisodeInfo) (msg : String),
      ep ∈ (if mediaType = "movie" then eps.take 1 else eps) →
      commentsResult ep.episodeId = .error msg →
      (genericImportTask db provider mediaId animeTitle mediaType season cei
          img dou tm im tv (.ok eps) commentsResult now).1 = db ∧
      ∃ m2, (genericImportTask db provider mediaId animeTitle mediaType season
          cei img dou tm im tv (.ok eps) commentsResult now).2 = .failed m2) := by
  constructor
  · intro e
    rfl
  · intro eps ep msg hep hfail
    unfold genericImportTask
    dsimp only
    by_cases hemp : eps.isEmpty
    · exfalso
      rw [List.isEmpty_iff] at hemp
      subst hemp
      by_cases hm : mediaType = "movie" <;> simp [hm] at hep
    · rw [if_neg hemp]
      rcases hcol : collectComments commentsResult
          (if mediaType = "movie" then eps.take 1 else eps) with m | data
      · exact ⟨rfl, m, rfl⟩
      · exfalso
        obtain ⟨cs, hcs⟩ := collectComments_ok_all commentsResult _ data hcol ep hep
        rw [hcs] at hfail
        exact Except.noConfusion hfail

/-- C3 witness: a comment fetch that raises leaves the database untouched
and fails the task. -/
theorem claim_C3_witness :
    (⟨"tencent", "v1", "第一集", 1, none⟩ : ProviderEpisodeInfo) ∈
      (if "tv_series" = "movie" then
        [(⟨"tencent", "v1", "第一集", 1, none⟩ : ProviderEpisodeInfo)].take 1
      else [(⟨"tencent", "v1", "第一集", 1, none⟩ : ProviderEpisodeInfo)]) ∧
    (genericImportTask emptyDb "tencent" "m1" "某标题" "tv_series" 1 none
        none none none none none
        (.ok [⟨"tencent", "v1", "第一集", 1, none⟩])
        (fun _ => .error "网络错误") 0).1 = emptyDb ∧
    ∃ m2, (genericImportTask emptyDb "tencent" "m1" "某标题" "tv_series" 1 none
        none none none none none
        (.ok [⟨"tencent", "v1", "第一集", 1, none⟩])
        (fun _ => .error "网络错误") 0).2 = .failed m2 := by
  refine ⟨by decide, ?_⟩
  exact (claim_C3 emptyDb "tencent" "m1" "某标题" "tv_series" 1 none
      none none none none none (fun _ => .error "网络错误") 0).2
    [⟨"tencent", "v1", "第一集", 1, none⟩]
    ⟨"tencent", "v1", "第一集", 1, none⟩ "网络错误" (by decide) rfl

/-- C2 (code bug): the staged import task can never perform the
duplicate-ignoring re-import the claim describes, because no import ever
writes to the database: on every path the returned state is the input
state, and an import whose fetches all succeed ends FAILED with the
TypeError raised by the five-argument crud.get_or_create_anime call at
ui.py line 1243 — shown concretely on a one-episode tencent import whose
episode and comment fetches both succeed. -/
theorem claim_C2 :
    (∀ (db : Db) (provider mediaId animeTitle mediaType : String)
       (season : Nat) (cei : Option Nat)
       (img dou tm im tv : Option String)
       (episodesResult : Except String (List ProviderEpisodeInfo))
       (commentsResult : String → Except String (List CommentDict))
       (now : Nat),
      (genericImportTask db provider mediaId animeTitle mediaType season cei
        img dou tm im tv episodesResult commentsResult now).1 = db) ∧
    genericImportTask emptyDb "tencent" "m1" "某标题" "tv_series" 1 none
        none none none none none
        (.ok [⟨"tencent", "v1", "第一集", 1, none⟩])
        (fun _ => .ok [⟨"c1", "10.00,1,16777215,[tencent]c1", "233", 1000⟩]) 0
      = (emptyDb, .failed TYPE_ERROR_GET_OR_CREATE_ANIME) := by
  constructor
  · intro db provider mediaId animeTitle mediaType season cei img dou tm im tv
      episodesResult commentsResult now
    unfold genericImportTask
    rcases episodesResult with e | eps
    · rfl
    · dsimp only
      by_cases hemp : eps.isEmpty
      · rw [if_pos hemp]
      · rw [if_neg hemp]
        rcases hcol : collectComments commentsResult
            (if mediaType = "movie" then eps.take 1 else eps) with m | data <;>
          rfl
  · rfl

end DanmuServer
